import Mathlib

/-!
Verification of the image-filter HTTP service
(repository: Processamento-de-Imagens_E01_Grupo04).

Shallow embedding conventions:
* A raster (`np.ndarray`) is the structure `Img`: height, width, a channel
  count (1 for a 2-D array, 3 for a BGR array) and a pixel function
  `row → col → channel → ℚ`.  Pixel values are exact rationals; the pure
  rational arithmetic reproduces the source's float64 arithmetic on the
  code paths the claims exercise (sums, differences, comparisons with 0,
  division by a power of two), with deviations noted locally.
* External library primitives (cv2.GaussianBlur, cv2.bilateralFilter,
  cv2.blur, cv2.medianBlur, cv2.Canny, cv2.imdecode, cv2.imencode) are
  out of scope per the repository layering; each embedded function that
  calls one takes the primitive as an explicit function argument, so
  theorems quantify over every possible behaviour of the library.
* A raised `HTTPException(status_code, detail)` is the value
  `Except.error ⟨status, detail⟩` of type `Except ErroHttp _`.
* Filesystem effects of `criar_zip_resposta` are returned explicitly:
  the function yields the HTTP result together with the list of files
  (path, zip entries) that exist on disk in `temp/` after the call.
-/

/-- An `HTTPException(status_code, detail)` from FastAPI, as raised by the
repository's validation and error paths. -/
structure ErroHttp where
  status : ℕ
  detail : String
deriving DecidableEq, Repr

/-- A `JSONResponse(status_code, content={"mensagem": ...})` as produced by
the exception handlers in `principal.py`. -/
structure JSONResponse where
  status : ℕ
  mensagem : String
deriving DecidableEq, Repr

/-- An in-memory raster (`np.ndarray`): `channels = 1` models a 2-D array
(`len(shape) == 2`), `channels = 3` a BGR array.  A grayscale raster's
value is read at channel 0. -/
structure Img where
  h : ℕ
  w : ℕ
  channels : ℕ
  px : ℕ → ℕ → ℕ → ℚ

/-- An all-uniform-color raster: every channel is constant over the pixel
grid (bounded to the three channels any code path reads). -/
def UniformImg (img : Img) : Prop :=
  ∀ c < 3, ∀ i < img.h, ∀ j < img.w, ∀ i2 < img.h, ∀ j2 < img.w,
    img.px i j c = img.px i2 j2 c

instance (img : Img) : Decidable (UniformImg img) := by
  unfold UniformImg; infer_instance

-- ===========================================================================
-- src/validacao.py
-- ===========================================================================

/-- `validar_kernel_impar` from `src/validacao.py`.  (Defined in the source
but called from nowhere in the repository; embedded for completeness.) -/
def validar_kernel_impar (kernel_size : ℤ) (nome_parametro : String) :
    Except ErroHttp Unit :=
  if kernel_size ≤ 0 then
    .error ⟨400, nome_parametro ++ " deve ser maior que zero (recebido: " ++
      toString kernel_size ++ ")"⟩
  else if kernel_size % 2 = 0 then
    .error ⟨400, nome_parametro ++ " deve ser um número ímpar (recebido: " ++
      toString kernel_size ++ ")"⟩
  else if kernel_size > 99 then
    .error ⟨400, nome_parametro ++ " muito grande. Máximo permitido: 99 (recebido: " ++
      toString kernel_size ++ ")"⟩
  else .ok ()

/-- `validar_intervalo` from `src/validacao.py`: inclusive range check,
raising HTTP 400 outside `[minimo, maximo]`. -/
def validar_intervalo (valor minimo maximo : ℤ) (nome_parametro : String) :
    Except ErroHttp Unit :=
  if valor < minimo ∨ valor > maximo then
    .error ⟨400, nome_parametro ++ " deve estar entre " ++ toString minimo ++
      " e " ++ toString maximo ++ " (recebido: " ++ toString valor ++ ")"⟩
  else .ok ()

/-- `validar_tamanho_abertura_canny` from `src/validacao.py`: the Canny
aperture must be 3, 5 or 7. -/
def validar_tamanho_abertura_canny (tamanho : ℤ) : Except ErroHttp Unit :=
  if ¬ (tamanho = 3 ∨ tamanho = 5 ∨ tamanho = 7) then
    .error ⟨400, "tamanho_abertura deve ser 3, 5 ou 7 (recebido: " ++
      toString tamanho ++ ")"⟩
  else .ok ()

/-- `validar_ordem_limiares_canny` from `src/validacao.py`: requires
`limiar2 > limiar1`. -/
def validar_ordem_limiares_canny (limiar1 limiar2 : ℤ) : Except ErroHttp Unit :=
  if limiar2 ≤ limiar1 then
    .error ⟨400, "limiar2 (" ++ toString limiar2 ++
      ") deve ser maior que limiar1 (" ++ toString limiar1 ++ ")"⟩
  else .ok ()

-- ===========================================================================
-- src/filtros/filtros_blur.py
-- ===========================================================================

/-- `filtro_gaussiano` from `src/filtros/filtros_blur.py`: rounds an even
kernel width/height up to the next odd value, then calls the external
primitive `cv2.GaussianBlur` (passed as `gb`). -/
def filtro_gaussiano (gb : Img → ℤ → ℤ → ℚ → Img) (img : Img)
    (kernel_width kernel_height : ℤ) (sigma : ℚ) : Img :=
  let kw := if kernel_width % 2 = 0 then kernel_width + 1 else kernel_width
  let kh := if kernel_height % 2 = 0 then kernel_height + 1 else kernel_height
  gb img kw kh sigma

/-- `filtro_bilateral` from `src/filtros/filtros_blur.py`: a direct call into
the external primitive `cv2.bilateralFilter` (passed as `bl`). -/
def filtro_bilateral (bl : Img → ℤ → ℤ → ℤ → Img) (img : Img)
    (d sigma_cor sigma_espaco : ℤ) : Img :=
  bl img d sigma_cor sigma_espaco

/-- `filtro_media` from `src/filtros/filtros_blur.py`: a direct call into the
external primitive `cv2.blur` (passed as `me`). -/
def filtro_media (me : Img → ℤ → ℤ → Img) (img : Img)
    (kernel_width kernel_height : ℤ) : Img :=
  me img kernel_width kernel_height

/-- `filtro_mediana` from `src/filtros/filtros_blur.py`: rounds an even
kernel size up to the next odd value, then calls the external primitive
`cv2.medianBlur` (passed as `md`). -/
def filtro_mediana (md : Img → ℤ → Img) (img : Img) (tamanho : ℤ) : Img :=
  md img (if tamanho % 2 = 0 then tamanho + 1 else tamanho)

/-- The `NIVEIS_GAUSSIANO` dict from `src/filtros/filtros_blur.py`, as a
partial map level ↦ (kernel_width, kernel_height, sigma). -/
def NIVEIS_GAUSSIANO (nivel : ℤ) : Option (ℤ × ℤ × ℚ) :=
  if nivel = 1 then some (5, 5, 0)
  else if nivel = 2 then some (15, 15, 0)
  else if nivel = 3 then some (35, 35, 0)
  else none

/-- The `NIVEIS_BILATERAL` dict: level ↦ (d, sigma_cor, sigma_espaco). -/
def NIVEIS_BILATERAL (nivel : ℤ) : Option (ℤ × ℤ × ℤ) :=
  if nivel = 1 then some (9, 25, 25)
  else if nivel = 2 then some (15, 50, 50)
  else if nivel = 3 then some (25, 75, 75)
  else none

/-- The `NIVEIS_MEDIA` dict: level ↦ (kernel_width, kernel_height). -/
def NIVEIS_MEDIA (nivel : ℤ) : Option (ℤ × ℤ) :=
  if nivel = 1 then some (3, 3)
  else if nivel = 2 then some (7, 7)
  else if nivel = 3 then some (15, 15)
  else none

/-- The `NIVEIS_MEDIANA` dict: level ↦ tamanho. -/
def NIVEIS_MEDIANA (nivel : ℤ) : Option ℤ :=
  if nivel = 1 then some 3
  else if nivel = 2 then some 7
  else if nivel = 3 then some 15
  else none

/-- `aplicar_gaussiano_nivel`: `NIVEIS_GAUSSIANO.get(nivel, NIVEIS_GAUSSIANO[2])`
then `filtro_gaussiano(img, **params)`.  The inner `getD` default is dead:
`NIVEIS_GAUSSIANO 2` is `some _`. -/
def aplicar_gaussiano_nivel (gb : Img → ℤ → ℤ → ℚ → Img) (img : Img)
    (nivel : ℤ) : Img :=
  let params := (NIVEIS_GAUSSIANO nivel).getD ((NIVEIS_GAUSSIANO 2).getD (0, 0, 0))
  filtro_gaussiano gb img params.1 params.2.1 params.2.2

/-- `aplicar_bilateral_nivel`: level-2 fallback via `.get`, then
`filtro_bilateral(img, **params)`. -/
def aplicar_bilateral_nivel (bl : Img → ℤ → ℤ → ℤ → Img) (img : Img)
    (nivel : ℤ) : Img :=
  let params := (NIVEIS_BILATERAL nivel).getD ((NIVEIS_BILATERAL 2).getD (0, 0, 0))
  filtro_bilateral bl img params.1 params.2.1 params.2.2

/-- `aplicar_media_nivel`: level-2 fallback via `.get`, then
`filtro_media(img, **params)`. -/
def aplicar_media_nivel (me : Img → ℤ → ℤ → Img) (img : Img) (nivel : ℤ) : Img :=
  let params := (NIVEIS_MEDIA nivel).getD ((NIVEIS_MEDIA 2).getD (0, 0))
  filtro_media me img params.1 params.2

/-- `aplicar_mediana_nivel`: level-2 fallback via `.get`, then
`filtro_mediana(img, **params)`. -/
def aplicar_mediana_nivel (md : Img → ℤ → Img) (img : Img) (nivel : ℤ) : Img :=
  let params := (NIVEIS_MEDIANA nivel).getD ((NIVEIS_MEDIANA 2).getD 0)
  filtro_mediana md img params

-- ===========================================================================
-- src/filtros/utilitarios.py
-- ===========================================================================

/-- Index of the last `'.'` in a character list, if any. -/
def lastDot : List Char → Option ℕ
  | [] => none
  | c :: cs =>
    match lastDot cs with
    | some k => some (k + 1)
    | none => if c = '.' then some 0 else none

/-- The extension part of `os.path.splitext(filename)[1]` for a plain file
name (the repository passes upload filenames, never paths): the suffix
starting at the last dot, unless every character before that dot is itself
a dot (leading dots are part of the base name, CPython `posixpath.splitext`
rule). -/
def splitext_ext (filename : String) : String :=
  let cs := filename.toList
  match lastDot cs with
  | none => ""
  | some p => if (cs.take p).all (fun c => c = '.') then "" else String.mk (cs.drop p)

/-- Python `str.lower()` as the characterwise ASCII lowercase map (the
extensions compared against are ASCII). -/
def str_toLower (s : String) : String := String.mk (s.toList.map Char.toLower)

/-- Error raised for an unsupported upload extension
(`utilitarios.py` line 36). -/
def msgFormato (extensao : String) : ErroHttp :=
  ⟨400, "Formato de arquivo não suportado " ++ extensao ++
    ". Formatos aceitos: .jpg, .jpeg, .png"⟩

/-- Error raised for an empty upload (`utilitarios.py` line 47). -/
def msgVazio : ErroHttp := ⟨400, "O arquivo enviado está vazio"⟩

/-- Error raised for an oversized upload (`utilitarios.py` line 55);
status 413 Payload Too Large. -/
def msgGrande : ErroHttp := ⟨413, "Arquivo muito grande. Tamanho máximo: 10MB"⟩

/-- Error raised when `cv2.imdecode` yields no raster
(`utilitarios.py` line 65). -/
def msgDecode : ErroHttp :=
  ⟨400, "Não foi possível decodificar a imagem. O arquivo pode estar corrompido ou não ser uma imagem válida."⟩

/-- Error raised for a decoded raster under 10×10 pixels
(`utilitarios.py` line 73). -/
def msgPequena : ErroHttp :=
  ⟨400, "Imagem muito pequena. Dimensões mínimas: 10x10 pixels"⟩

/-- `processar_imagem_upload` from `src/filtros/utilitarios.py`.
`imdecode` stands for the external `cv2.imdecode(..., IMREAD_COLOR)`
capability (`none` models a `None` return for undecodable bytes); the
upload is its declared `filename` plus its byte `conteudo`.  A missing
file and a missing filename both collapse to `filename = ""`.  The source
compares `len(conteudo) / (1024*1024) > 10` in binary floating point;
division by the power of two 2^20 is exact there, so the comparison equals
`len > 10*1024*1024`.  The surrounding `try/except` re-raises the
`HTTPException`s modelled here and has no other failure source in this
model. -/
def processar_imagem_upload (imdecode : List ℕ → Option Img)
    (filename : String) (conteudo : List ℕ) : Except ErroHttp Img :=
  if filename = "" then .error ⟨400, "Nenhum arquivo foi enviado"⟩
  else
    let extensao := str_toLower (splitext_ext filename)
    if ¬ (extensao ∈ [".jpg", ".jpeg", ".png"]) then .error (msgFormato extensao)
    else if conteudo.length = 0 then .error msgVazio
    else if conteudo.length > 10 * 1024 * 1024 then .error msgGrande
    else
      match imdecode conteudo with
      | none => .error msgDecode
      | some img =>
        if img.h < 10 ∨ img.w < 10 then .error msgPequena
        else .ok img

/-- The fixed BGR→gray linear combination used by `cv2.cvtColor(...,
COLOR_BGR2GRAY)`; modelled from the cv2 documentation
(Y = 0.299 R + 0.587 G + 0.114 B, channels in B,G,R order), kept exact
over ℚ. -/
def cvtColorBGR2GRAY (img : Img) : Img :=
  ⟨img.h, img.w, 1, fun i j _ =>
    (114 * img.px i j 0 + 587 * img.px i j 1 + 299 * img.px i j 2) / 1000⟩

/-- `converter_para_cinza` from `src/filtros/utilitarios.py`: converts to
grayscale when the raster has 3 channels (`len(img.shape) == 3`), returns
the raster unchanged otherwise. -/
def converter_para_cinza (img : Img) : Img :=
  if img.channels = 3 then cvtColorBGR2GRAY img else img

/-- The zip file name chosen by `criar_zip_resposta` (`utilitarios.py`
lines 183–186); `if nivel:` is Python truthiness, false for `None` and
for 0. -/
def zip_nome (nome_filtro : String) (nivel : Option ℤ) : String :=
  match nivel with
  | some n =>
    if n = 0 then "filtro_" ++ nome_filtro ++ "_customizado.zip"
    else "filtro_" ++ nome_filtro ++ "_nivel" ++ toString n ++ ".zip"
  | none => "filtro_" ++ nome_filtro ++ "_customizado.zip"

/-- Bytes of a string, for the `info.json` entry. -/
def str_bytes (s : String) : List ℕ := s.toList.map Char.toNat

/-- `criar_zip_resposta` from `src/filtros/utilitarios.py`.
`enc img fmt` stands for the external `cv2.imencode('.' + fmt, img)`
capability (`none` models `sucesso == False`).  `metadados` is the string
`json.dumps(metadados, indent=2, ensure_ascii=False)` would produce — no
claim inspects its contents.  The returned pair is (HTTP result, files on
disk under `temp/` after the call): opening `zipfile.ZipFile(caminho, 'w')`
creates the file on disk at once, an exception inside the `with` block
closes the archive with the entries written so far, and the `except`
clause maps the failure to HTTP 500 without deleting the file. -/
def criar_zip_resposta (enc : Img → String → Option (List ℕ))
    (img_original img_filtrada : Img) (metadados : String)
    (nome_filtro : String) (nivel : Option ℤ) (formato : String) :
    Except ErroHttp String × List (String × List (String × List ℕ)) :=
  let formato_cv2 := if formato = "jpg" ∨ formato = "jpeg" then "jpg" else formato
  let extensao := formato
  let caminho_zip := "temp/" ++ zip_nome nome_filtro nivel
  match enc img_original formato_cv2 with
  | none =>
    (.error ⟨500, "Erro ao criar arquivo ZIP: Falha ao codificar imagem original"⟩,
     [(caminho_zip, [])])
  | some buffer_original =>
    match enc img_filtrada formato_cv2 with
    | none =>
      (.error ⟨500, "Erro ao criar arquivo ZIP: Falha ao codificar imagem filtrada"⟩,
       [(caminho_zip, [("original." ++ extensao, buffer_original)])])
    | some buffer_filtrada =>
      (.ok caminho_zip,
       [(caminho_zip,
         [("original." ++ extensao, buffer_original),
          ("filtrada." ++ extensao, buffer_filtrada),
          ("info.json", str_bytes metadados)])])

-- ===========================================================================
-- src/principal.py (exception handler and the custom-endpoint filter steps)
-- ===========================================================================

/-- `generic_exception_handler` from `src/principal.py` lines 109–116: the
catch-all handler for unclassified exceptions.  `exc` is `str(exc)`; the
handler logs the full detail server-side and returns this JSON body to the
client. -/
def generic_exception_handler (exc : String) : JSONResponse :=
  ⟨500, "Erro interno do servidor: " ++ exc⟩

/-- The filter step of the `POST /filtros/gaussiano/customizado` endpoint
(`principal.py` line 137): the user-supplied parameters are handed to
`filtro_gaussiano` with no prior validation. -/
def gaussiano_customizado_filtro (gb : Img → ℤ → ℤ → ℚ → Img) (img : Img)
    (kernel_width kernel_height : ℤ) (sigma : ℚ) : Img :=
  filtro_gaussiano gb img kernel_width kernel_height sigma

/-- The filter step of the `POST /filtros/mediana/customizado` endpoint
(`principal.py` line 384): the user-supplied size is handed to
`filtro_mediana` with no prior validation. -/
def mediana_customizado_filtro (md : Img → ℤ → Img) (img : Img)
    (tamanho : ℤ) : Img :=
  filtro_mediana md img tamanho

-- ===========================================================================
-- src/filtros/deteccao_bordas.py
-- ===========================================================================

/-- Reflect-mode boundary index (scipy `mode='reflect'` as used by the
skimage edge filters): one step outside either edge reflects back to the
nearest row/column. -/
def reflectIdx (n : ℕ) (i : ℤ) : ℕ :=
  if i < 0 then (-i - 1).toNat
  else if (n : ℤ) ≤ i then (2 * (n : ℤ) - 1 - i).toNat
  else i.toNat

/-- Grayscale pixel read with reflect boundary handling, after the
`img_gray.astype(np.float64) / 255.0` normalization. -/
def normPx (g : Img) (i j : ℤ) : ℚ :=
  g.px (reflectIdx g.h i) (reflectIdx g.w j) 0 / 255

/-- `skimage.filters.sobel_h`: horizontal-edge Sobel response, kernel
`[[1,2,1],[0,0,0],[-1,-2,-1]] / 4`, reflect boundary. -/
def sobel_h (g : Img) (i j : ℕ) : ℚ :=
  (normPx g ((i : ℤ) - 1) ((j : ℤ) - 1) + 2 * normPx g ((i : ℤ) - 1) (j : ℤ)
    + normPx g ((i : ℤ) - 1) ((j : ℤ) + 1)
    - normPx g ((i : ℤ) + 1) ((j : ℤ) - 1) - 2 * normPx g ((i : ℤ) + 1) (j : ℤ)
    - normPx g ((i : ℤ) + 1) ((j : ℤ) + 1)) / 4

/-- `skimage.filters.sobel_v`: vertical-edge Sobel response, kernel
`[[1,0,-1],[2,0,-2],[1,0,-1]] / 4`, reflect boundary. -/
def sobel_v (g : Img) (i j : ℕ) : ℚ :=
  (normPx g ((i : ℤ) - 1) ((j : ℤ) - 1) - normPx g ((i : ℤ) - 1) ((j : ℤ) + 1)
    + 2 * normPx g (i : ℤ) ((j : ℤ) - 1) - 2 * normPx g (i : ℤ) ((j : ℤ) + 1)
    + normPx g ((i : ℤ) + 1) ((j : ℤ) - 1)
    - normPx g ((i : ℤ) + 1) ((j : ℤ) + 1)) / 4

/-- The positive-diagonal Roberts cross response (kernel `[[1,0],[0,-1]]`,
reflect boundary), used by `skimage.filters.roberts`. -/
def roberts_pos (g : Img) (i j : ℕ) : ℚ :=
  normPx g (i : ℤ) (j : ℤ) - normPx g ((i : ℤ) + 1) ((j : ℤ) + 1)

/-- The negative-diagonal Roberts cross response (kernel `[[0,1],[-1,0]]`,
reflect boundary), used by `skimage.filters.roberts`. -/
def roberts_neg (g : Img) (i j : ℕ) : ℚ :=
  normPx g (i : ℤ) ((j : ℤ) + 1) - normPx g ((i : ℤ) + 1) (j : ℤ)

/-- `np.hypot` modelled through its square, `x² + y²`, which stays inside ℚ.
The square is a strictly monotone, zero-preserving bijection of the
nonnegative reals, so the two facts the source relies on — the maximum of
the magnitude map is 0 exactly when every directional response is 0, and
the maximum is attained at the same pixel — are unchanged by this
encoding. -/
def hypotSq (x y : ℚ) : ℚ := x * x + y * y

/-- The Sobel gradient-magnitude map of `borda_sobel`
(`np.hypot(sobel_x, sobel_y)` on the normalized grayscale, under the
`hypotSq` encoding). -/
def sobelMag (img : Img) (i j : ℕ) : ℚ :=
  hypotSq (sobel_h (converter_para_cinza img) i j)
    (sobel_v (converter_para_cinza img) i j)

/-- The Roberts gradient-magnitude map of `borda_roberts`
(`skimage.filters.roberts` under the `hypotSq` encoding). -/
def robertsMag (img : Img) (i j : ℕ) : ℚ :=
  hypotSq (roberts_pos (converter_para_cinza img) i j)
    (roberts_neg (converter_para_cinza img) i j)

/-- `arr.max()` over an `h × w` map.  Every magnitude entry is a sum of
squares, hence nonnegative, so seeding the fold with 0 agrees with numpy's
maximum on every nonempty array; numpy raises on an empty array, which the
callers handle separately. -/
def matMax (h w : ℕ) (f : ℕ → ℕ → ℚ) : ℚ :=
  ((List.range h).map (fun i => ((List.range w).map (f i)).foldr max 0)).foldr max 0

/-- `borda.max()` inside `borda_sobel`. -/
def sobelMaxVal (img : Img) : ℚ :=
  matMax (converter_para_cinza img).h (converter_para_cinza img).w (sobelMag img)

/-- `roberts_borda.max()` inside `borda_roberts`. -/
def robertsMaxVal (img : Img) : ℚ :=
  matMax (converter_para_cinza img).h (converter_para_cinza img).w (robertsMag img)

/-- `np.zeros_like(img_gray)`: an all-zero single-channel raster of the
given shape. -/
def zerosGray (h w : ℕ) : Img := ⟨h, w, 1, fun _ _ _ => 0⟩

/-- The numpy float64 → uint8 cast: truncation toward zero, wrapped
modulo 2^8. -/
def toUint8 (q : ℚ) : ℚ :=
  (((if 0 ≤ q then ⌊q⌋ else -⌊-q⌋) % 256 : ℤ) : ℚ)

/-- `borda_sobel` from `src/filtros/deteccao_bordas.py`: grayscale, /255
normalization, `sobel_h`/`sobel_v`, `np.hypot` magnitude, then either the
all-zero raster when the observed maximum is 0 or the `(borda / max) * 255`
normalization cast to uint8.  A zero-sized input makes `borda.max()` raise
inside the `try`, which the `except` clause maps to HTTP 500. -/
def borda_sobel (img : Img) : Except ErroHttp Img :=
  let g := converter_para_cinza img
  if g.h = 0 ∨ g.w = 0 then
    .error ⟨500, "Erro ao aplicar filtro Sobel: zero-size array to reduction operation"⟩
  else
    let max_val := sobelMaxVal img
    if max_val = 0 then .ok (zerosGray g.h g.w)
    else .ok ⟨g.h, g.w, 1, fun i j _ => toUint8 (sobelMag img i j / max_val * 255)⟩

/-- `borda_roberts` from `src/filtros/deteccao_bordas.py`: same shape as
`borda_sobel` with the Roberts cross magnitude. -/
def borda_roberts (img : Img) : Except ErroHttp Img :=
  let g := converter_para_cinza img
  if g.h = 0 ∨ g.w = 0 then
    .error ⟨500, "Erro ao aplicar filtro Roberts: zero-size array to reduction operation"⟩
  else
    let max_val := robertsMaxVal img
    if max_val = 0 then .ok (zerosGray g.h g.w)
    else .ok ⟨g.h, g.w, 1, fun i j _ => toUint8 (robertsMag img i j / max_val * 255)⟩

/-- One pixel-processing step of `borda_canny`, recorded in order of
execution: the grayscale conversion, the optional 5×5 Gaussian pre-blur,
and the `cv2.Canny` call with the thresholds and aperture it receives. -/
inductive PixelOp where
  | grayConv : PixelOp
  | blur5 : PixelOp
  | cannyCall (limiar1 limiar2 tamanho_abertura : ℤ) : PixelOp
deriving DecidableEq, Repr

/-- `borda_canny` from `src/filtros/deteccao_bordas.py`.  `cannyP` and
`gaussP` stand for the external `cv2.Canny` and `cv2.GaussianBlur`
capabilities.  The four validations run, in source order, before any
pixel work; the uint8 dtype adjustment (source lines 124–129) is a no-op
in the rational-pixel model.  The second component lists the pixel
operations performed, so a validation failure is paired with the empty
list. -/
def borda_canny (cannyP : Img → ℤ → ℤ → ℤ → Img) (gaussP : Img → ℤ → ℤ → ℚ → Img)
    (img : Img) (limiar1 limiar2 tamanho_abertura : ℤ) (aplicar_blur : Bool) :
    Except ErroHttp Img × List PixelOp :=
  match validar_intervalo limiar1 0 255 ("limiar1") with
  | .error e => (.error e, [])
  | .ok _ =>
  match validar_intervalo limiar2 0 255 ("limiar2") with
  | .error e => (.error e, [])
  | .ok _ =>
  match validar_tamanho_abertura_canny tamanho_abertura with
  | .error e => (.error e, [])
  | .ok _ =>
  match validar_ordem_limiares_canny limiar1 limiar2 with
  | .error e => (.error e, [])
  | .ok _ =>
    let img_gray := converter_para_cinza img
    if aplicar_blur then
      (.ok (cannyP (gaussP img_gray 5 5 0) limiar1 limiar2 tamanho_abertura),
       [PixelOp.grayConv, PixelOp.blur5,
        PixelOp.cannyCall limiar1 limiar2 tamanho_abertura])
    else
      (.ok (cannyP img_gray limiar1 limiar2 tamanho_abertura),
       [PixelOp.grayConv, PixelOp.cannyCall limiar1 limiar2 tamanho_abertura])

/-- The `NIVEIS_CANNY` dict from `src/filtros/deteccao_bordas.py`:
level ↦ (limiar1, limiar2, tamanho_abertura, aplicar_blur). -/
def NIVEIS_CANNY (nivel : ℤ) : Option (ℤ × ℤ × ℤ × Bool) :=
  if nivel = 1 then some (50, 150, 3, true)
  else if nivel = 2 then some (100, 200, 3, true)
  else if nivel = 3 then some (150, 250, 3, true)
  else none

/-- `aplicar_canny_nivel`: `NIVEIS_CANNY.get(nivel, NIVEIS_CANNY[2])` then
`borda_canny(img, **params)`.  The inner `getD` default is dead:
`NIVEIS_CANNY 2` is `some _`. -/
def aplicar_canny_nivel (cannyP : Img → ℤ → ℤ → ℤ → Img)
    (gaussP : Img → ℤ → ℤ → ℚ → Img) (img : Img) (nivel : ℤ) :
    Except ErroHttp Img × List PixelOp :=
  let params := (NIVEIS_CANNY nivel).getD ((NIVEIS_CANNY 2).getD (0, 0, 0, false))
  borda_canny cannyP gaussP img params.1 params.2.1 params.2.2.1 params.2.2.2

-- ===========================================================================
-- Helper lemmas and concrete fixtures
-- ===========================================================================

/-- HTTP status of a handler result: the carried status on error, 200 on
success. -/
def respStatus : Except ErroHttp Img → ℕ
  | .error e => e.status
  | .ok _ => 200

/-- A concrete 20×20 BGR raster. -/
def imgW : Img := ⟨20, 20, 3, fun _ _ _ => 7⟩

/-- A concrete Gaussian-blur primitive that records the kernel it receives
in the dimensions of its output. -/
def gbW : Img → ℤ → ℤ → ℚ → Img :=
  fun _ kw kh _ => ⟨kw.toNat, kh.toNat, 1, fun _ _ _ => 0⟩

/-- A concrete bilateral primitive recording its arguments. -/
def blW : Img → ℤ → ℤ → ℤ → Img :=
  fun _ d sc se => ⟨d.toNat, sc.toNat, se.toNat, fun _ _ _ => 0⟩

/-- A concrete box-blur primitive recording its arguments. -/
def meW : Img → ℤ → ℤ → Img :=
  fun _ kw kh => ⟨kw.toNat, kh.toNat, 1, fun _ _ _ => 0⟩

/-- A concrete median primitive recording its argument. -/
def mdW : Img → ℤ → Img :=
  fun _ t => ⟨t.toNat, 1, 1, fun _ _ _ => 0⟩

/-- A concrete Canny primitive. -/
def cpW : Img → ℤ → ℤ → ℤ → Img := fun i _ _ _ => i

/-- A concrete Gaussian pre-blur primitive for the Canny pipeline. -/
def gpW : Img → ℤ → ℤ → ℚ → Img := fun i _ _ _ => i

/-- An encoder that always reports failure (`sucesso == False`). -/
def encNone : Img → String → Option (List ℕ) := fun _ _ => none

/-- An encoder that always succeeds with a fixed buffer. -/
def encOk : Img → String → Option (List ℕ) := fun _ _ => some [7, 7, 7]

/-- String append is left-cancellative. -/
theorem string_append_cancel (p s t : String) (h : p ++ s = p ++ t) : s = t := by
  cases p with
  | mk pd =>
    cases s with
    | mk sd =>
      cases t with
      | mk td =>
        have hd : pd ++ sd = pd ++ td := congrArg String.data h
        exact congrArg String.mk (List.append_cancel_left hd)

-- ===========================================================================
-- Claim C8
-- ===========================================================================

/-- Claim C8: for the quick (preset) gaussian endpoints, level 1 resolves to
exactly kernel 5×5 with sigma 0, level 2 to 15×15 with sigma 0 and level 3
to 35×35 with sigma 0, and the applied filter calls the blur primitive with
exactly the resolved tuple (the odd presets pass through
`filtro_gaussiano`'s parity adjustment unchanged). -/
theorem claim_C8 (gb : Img → ℤ → ℤ → ℚ → Img) (img : Img) :
    NIVEIS_GAUSSIANO 1 = some (5, 5, 0) ∧
    NIVEIS_GAUSSIANO 2 = some (15, 15, 0) ∧
    NIVEIS_GAUSSIANO 3 = some (35, 35, 0) ∧
    aplicar_gaussiano_nivel gb img 1 = gb img 5 5 0 ∧
    aplicar_gaussiano_nivel gb img 2 = gb img 15 15 0 ∧
    aplicar_gaussiano_nivel gb img 3 = gb img 35 35 0 := by
  refine ⟨rfl, rfl, rfl, rfl, rfl, rfl⟩

-- ===========================================================================
-- Claim C9
-- ===========================================================================

/-- Claim C9: for every level that is not 1, 2 or 3, each preset-dispatch
function does not fail: it silently falls back to the level-2 preset
parameters and applies the filter with them (for Canny the fallback tuple
(100, 200, 3, blur) passes all validations, so the primitive runs). -/
theorem claim_C9 (gb : Img → ℤ → ℤ → ℚ → Img) (bl : Img → ℤ → ℤ → ℤ → Img)
    (me : Img → ℤ → ℤ → Img) (md : Img → ℤ → Img)
    (cannyP : Img → ℤ → ℤ → ℤ → Img) (gaussP : Img → ℤ → ℤ → ℚ → Img)
    (img : Img) (nivel : ℤ)
    (h1 : nivel ≠ 1) (h2 : nivel ≠ 2) (h3 : nivel ≠ 3) :
    aplicar_gaussiano_nivel gb img nivel = gb img 15 15 0 ∧
    aplicar_bilateral_nivel bl img nivel = bl img 15 50 50 ∧
    aplicar_media_nivel me img nivel = me img 7 7 ∧
    aplicar_mediana_nivel md img nivel = md img 7 ∧
    aplicar_canny_nivel cannyP gaussP img nivel =
      borda_canny cannyP gaussP img 100 200 3 true ∧
    (aplicar_canny_nivel cannyP gaussP img nivel).1 =
      .ok (cannyP (gaussP (converter_para_cinza img) 5 5 0) 100 200 3) := by
  simp only [aplicar_gaussiano_nivel, aplicar_bilateral_nivel, aplicar_media_nivel,
    aplicar_mediana_nivel, aplicar_canny_nivel, NIVEIS_GAUSSIANO, NIVEIS_BILATERAL,
    NIVEIS_MEDIA, NIVEIS_MEDIANA, NIVEIS_CANNY, if_neg h1, if_neg h2, if_neg h3]
  refine ⟨rfl, rfl, rfl, rfl, rfl, rfl⟩

/-- Witness for claim C9 at the concrete out-of-range level 5. -/
theorem claim_C9_witness :
    aplicar_gaussiano_nivel gbW imgW 5 = gbW imgW 15 15 0 ∧
    aplicar_canny_nivel cpW gpW imgW 5 =
      borda_canny cpW gpW imgW 100 200 3 true := by
  have h := claim_C9 gbW blW meW mdW cpW gpW imgW 5
    (by decide) (by decide) (by decide)
  exact ⟨h.1, h.2.2.2.2.1⟩

-- ===========================================================================
-- Claim C1 (corrected)
-- ===========================================================================

/-- Counterexample to claim C1 as stated: the custom-parameter gaussian and
median endpoints DO silently increment an even kernel size — with kernel
width and height 4 the blur primitive is invoked with 5 (recorded here in
the output dimensions), and with median size 4 the median primitive is
invoked with 5. -/
theorem c1_counterexample :
    (gaussiano_customizado_filtro gbW imgW 4 4 0).h = 5 ∧
    (gbW imgW 4 4 0).h = 4 ∧
    (mediana_customizado_filtro mdW imgW 4).h = 5 ∧
    (mdW imgW 4).h = 4 := by
  refine ⟨rfl, rfl, rfl, rfl⟩

/-- Claim C1 (amended): in the custom-parameter endpoints an even
kernel-size value IS silently incremented to the next odd value — the
round-up lives inside the shared filter functions (`filtro_gaussiano`,
`filtro_mediana`), so it applies to the custom-parameter endpoints exactly
as to the preset endpoints; no parity validation runs on the custom path. -/
theorem claim_C1_amended (gb : Img → ℤ → ℤ → ℚ → Img) (md : Img → ℤ → Img)
    (img : Img) (kernel_width kernel_height tamanho : ℤ) (sigma : ℚ)
    (hkw : kernel_width % 2 = 0) (hkh : kernel_height % 2 = 0)
    (ht : tamanho % 2 = 0) :
    gaussiano_customizado_filtro gb img kernel_width kernel_height sigma =
      gb img (kernel_width + 1) (kernel_height + 1) sigma ∧
    mediana_customizado_filtro md img tamanho = md img (tamanho + 1) := by
  unfold gaussiano_customizado_filtro filtro_gaussiano
    mediana_customizado_filtro filtro_mediana
  rw [if_pos hkw, if_pos hkh, if_pos ht]
  exact ⟨rfl, rfl⟩

/-- Witness for the amended claim C1 at the concrete even kernel sizes 4. -/
theorem claim_C1_amended_witness :
    gaussiano_customizado_filtro gbW imgW 4 4 0 = gbW imgW 5 5 0 ∧
    mediana_customizado_filtro mdW imgW 4 = mdW imgW 5 := by
  have h := claim_C1_amended gbW mdW imgW 4 4 4 0 (by decide) (by decide) (by decide)
  exact ⟨h.1, h.2⟩

-- ===========================================================================
-- Claim C2 (corrected)
-- ===========================================================================

/-- Counterexample to claim C2 as stated: two distinct internal exceptions
produce distinct client-visible messages, because the generic handler
embeds `str(exc)` in the JSON body. -/
theorem c2_counterexample :
    (generic_exception_handler ("division by zero")).mensagem ≠
      (generic_exception_handler ("index out of range")).mensagem := by
  decide

/-- Claim C2 (amended): the generic exception handler always answers with
HTTP 500 and a message that is the fixed text "Erro interno do servidor: "
followed by the exception's own detail, so the client-visible message
determines — and is determined by — the internal exception detail: the
detail is leaked to the client, not only logged. -/
theorem claim_C2_amended (e1 e2 : String) :
    (generic_exception_handler e1).status = 500 ∧
    ((generic_exception_handler e1).mensagem =
        (generic_exception_handler e2).mensagem ↔ e1 = e2) := by
  refine ⟨rfl, ?_, ?_⟩
  · intro h
    exact string_append_cancel ("Erro interno do servidor: ") e1 e2 h
  · intro h
    rw [h]

-- ===========================================================================
-- Claim C3 (corrected)
-- ===========================================================================

/-- Counterexample to claim C3 as stated: when encoding the original image
fails, the operation does fail with the archive-build error (HTTP 500),
but a file DOES remain on durable storage — the zip created when the
archive was opened is still on disk (here, empty). -/
theorem c3_counterexample :
    (criar_zip_resposta encNone imgW imgW ("meta") ("sobel") (some 1) ("png")).2 =
      [("temp/filtro_sobel_nivel1.zip", [])] ∧
    (criar_zip_resposta encNone imgW imgW ("meta") ("sobel") (some 1) ("png")).1 =
      .error ⟨500, "Erro ao criar arquivo ZIP: Falha ao codificar imagem original"⟩ := by
  refine ⟨rfl, rfl⟩

/-- Claim C3 (amended): if encoding either the original or the filtered
image fails, `criar_zip_resposta` fails with the archive-build error
(HTTP 500, detail "Erro ao criar arquivo ZIP: ..."), but the zip file
created at archive-open time remains on disk, holding the entries written
before the failure: no entry when the original image's encode fails, and
only `original.<ext>` when the filtered image's encode fails. -/
theorem claim_C3_amended (enc : Img → String → Option (List ℕ))
    (img_original img_filtrada : Img) (metadados nome_filtro : String)
    (nivel : Option ℤ) (formato : String) :
    (enc img_original (if formato = "jpg" ∨ formato = "jpeg" then "jpg" else formato) =
        none →
      criar_zip_resposta enc img_original img_filtrada metadados nome_filtro nivel
          formato =
        (.error ⟨500, "Erro ao criar arquivo ZIP: Falha ao codificar imagem original"⟩,
         [("temp/" ++ zip_nome nome_filtro nivel, [])])) ∧
    (∀ buffer_original,
      enc img_original (if formato = "jpg" ∨ formato = "jpeg" then "jpg" else formato) =
          some buffer_original →
      enc img_filtrada (if formato = "jpg" ∨ formato = "jpeg" then "jpg" else formato) =
          none →
      criar_zip_resposta enc img_original img_filtrada metadados nome_filtro nivel
          formato =
        (.error ⟨500, "Erro ao criar arquivo ZIP: Falha ao codificar imagem filtrada"⟩,
         [("temp/" ++ zip_nome nome_filtro nivel,
           [("original." ++ formato, buffer_original)])])) := by
  constructor
  · intro h
    simp only [criar_zip_resposta, h]
  · intro b h1 h2
    simp only [criar_zip_resposta, h1, h2]

/-- Witness for the amended claim C3 with an always-failing encoder. -/
theorem claim_C3_amended_witness :
    criar_zip_resposta encNone imgW imgW ("meta") ("gaussiano") none ("png") =
      (.error ⟨500, "Erro ao criar arquivo ZIP: Falha ao codificar imagem original"⟩,
       [("temp/filtro_gaussiano_customizado.zip", [])]) := by
  exact (claim_C3_amended encNone imgW imgW ("meta") ("gaussiano") none ("png")).1 rfl

-- ===========================================================================
-- Claim C7
-- ===========================================================================

/-- Claim C7: every successfully built archive holds exactly three entries,
named `original.<ext>`, `filtrada.<ext>` and `info.json`, where `<ext>` is
the requested output format. -/
theorem claim_C7 (enc : Img → String → Option (List ℕ))
    (img_original img_filtrada : Img) (metadados nome_filtro : String)
    (nivel : Option ℤ) (formato : String) (path : String)
    (hok : (criar_zip_resposta enc img_original img_filtrada metadados nome_filtro
        nivel formato).1 = .ok path) :
    ∃ entries,
      (criar_zip_resposta enc img_original img_filtrada metadados nome_filtro
        nivel formato).2 = [(path, entries)] ∧
      entries.map Prod.fst =
        ["original." ++ formato, "filtrada." ++ formato, "info.json"] := by
  rcases h1 : enc img_original
      (if formato = "jpg" ∨ formato = "jpeg" then "jpg" else formato) with _ | b1
  · simp only [criar_zip_resposta, h1] at hok
    exact Except.noConfusion hok
  · rcases h2 : enc img_filtrada
        (if formato = "jpg" ∨ formato = "jpeg" then "jpg" else formato) with _ | b2
    · simp only [criar_zip_resposta, h1, h2] at hok
      exact Except.noConfusion hok
    · simp only [criar_zip_resposta, h1, h2, Except.ok.injEq] at hok
      refine ⟨[("original." ++ formato, b1), ("filtrada." ++ formato, b2),
        ("info.json", str_bytes metadados)], ?_, rfl⟩
      simp only [criar_zip_resposta, h1, h2, hok]

/-- Witness for claim C7 with an always-succeeding encoder at level 2. -/
theorem claim_C7_witness :
    ∃ entries,
      (criar_zip_resposta encOk imgW imgW ("meta") ("gaussiano") (some 2)
        ("png")).2 = [("temp/filtro_gaussiano_nivel2.zip", entries)] ∧
      entries.map Prod.fst = ["original.png", "filtrada.png", "info.json"] := by
  exact claim_C7 encOk imgW imgW ("meta") ("gaussiano") (some 2) ("png")
    ("temp/filtro_gaussiano_nivel2.zip") rfl

-- ===========================================================================
-- Claim C4
-- ===========================================================================

/-- A concrete decoded 20×20 raster for the upload witness. -/
def imgDec : Img := ⟨20, 20, 3, fun _ _ _ => 1⟩

/-- A decoder capability that always yields `imgDec`. -/
def decW : List ℕ → Option Img := fun _ => some imgDec


/-- Claim C4: for an uploaded file (its filename is by construction
nonempty), decoding fails exactly when the extension is not
.jpg/.jpeg/.png, the byte length is zero, the byte length exceeds 10 MiB,
the decode capability produces no raster, or the decoded height or width
is below 10 pixels — and the checks run in that order, so the first
applicable failure is the one reported. -/
theorem claim_C4 (imdecode : List ℕ → Option Img) (filename : String)
    (conteudo : List ℕ) (hfn : filename ≠ "") :
    ((∃ e, processar_imagem_upload imdecode filename conteudo = .error e) ↔
      (str_toLower (splitext_ext filename) ∉ [".jpg", ".jpeg", ".png"] ∨
        conteudo.length = 0 ∨ conteudo.length > 10 * 1024 * 1024 ∨
        imdecode conteudo = none ∨
        ∃ img, imdecode conteudo = some img ∧ (img.h < 10 ∨ img.w < 10))) ∧
    (str_toLower (splitext_ext filename) ∉ [".jpg", ".jpeg", ".png"] →
      processar_imagem_upload imdecode filename conteudo =
        .error (msgFormato (str_toLower (splitext_ext filename)))) ∧
    (str_toLower (splitext_ext filename) ∈ [".jpg", ".jpeg", ".png"] →
      conteudo.length = 0 →
      processar_imagem_upload imdecode filename conteudo = .error msgVazio) ∧
    (str_toLower (splitext_ext filename) ∈ [".jpg", ".jpeg", ".png"] →
      conteudo.length ≠ 0 → conteudo.length > 10 * 1024 * 1024 →
      processar_imagem_upload imdecode filename conteudo = .error msgGrande) ∧
    (str_toLower (splitext_ext filename) ∈ [".jpg", ".jpeg", ".png"] →
      conteudo.length ≠ 0 → ¬ conteudo.length > 10 * 1024 * 1024 →
      imdecode conteudo = none →
      processar_imagem_upload imdecode filename conteudo = .error msgDecode) ∧
    (∀ img, str_toLower (splitext_ext filename) ∈ [".jpg", ".jpeg", ".png"] →
      conteudo.length ≠ 0 → ¬ conteudo.length > 10 * 1024 * 1024 →
      imdecode conteudo = some img → (img.h < 10 ∨ img.w < 10) →
      processar_imagem_upload imdecode filename conteudo = .error msgPequena) ∧
    (∀ img, str_toLower (splitext_ext filename) ∈ [".jpg", ".jpeg", ".png"] →
      conteudo.length ≠ 0 → ¬ conteudo.length > 10 * 1024 * 1024 →
      imdecode conteudo = some img → ¬ (img.h < 10 ∨ img.w < 10) →
      processar_imagem_upload imdecode filename conteudo = .ok img) := by
  refine ⟨⟨?_, ?_⟩, ?_, ?_, ?_, ?_, ?_, ?_⟩
  · intro he
    by_contra hnone
    push_neg at hnone
    obtain ⟨hext, hzero, hbig, hdec, hdim⟩ := hnone
    obtain ⟨img, himg⟩ := Option.ne_none_iff_exists'.mp hdec
    obtain ⟨hh, hw⟩ := hdim img himg
    have hbig2 : ¬ conteudo.length > 10 * 1024 * 1024 := by omega
    have hdims : ¬ (img.h < 10 ∨ img.w < 10) := by omega
    obtain ⟨e, he⟩ := he
    rw [processar_imagem_upload] at he
    simp [hfn, hext, hzero, hbig2, himg, hdims] at he
  · intro hcond
    by_cases hext : str_toLower (splitext_ext filename) ∈ [".jpg", ".jpeg", ".png"]
    · by_cases hzero : conteudo.length = 0
      · exact ⟨msgVazio, by rw [processar_imagem_upload]; simp [hfn, hext, hzero]⟩
      · by_cases hbig : conteudo.length > 10 * 1024 * 1024
        · exact ⟨msgGrande, by
            rw [processar_imagem_upload]; simp [hfn, hext, hzero, hbig]⟩
        · rcases hd : imdecode conteudo with _ | img
          · exact ⟨msgDecode, by
              rw [processar_imagem_upload]; simp [hfn, hext, hzero, hbig, hd]⟩
          · have hdim : img.h < 10 ∨ img.w < 10 := by
              rcases hcond with h | h | h | h | ⟨img2, h2, hlt⟩
              · exact absurd hext h
              · exact absurd h hzero
              · exact absurd h hbig
              · rw [hd] at h; exact Option.noConfusion h
              · rw [hd] at h2; injection h2 with h2; exact h2 ▸ hlt
            exact ⟨msgPequena, by
              rw [processar_imagem_upload]; simp [hfn, hext, hzero, hbig, hd, hdim]⟩
    · exact ⟨msgFormato (str_toLower (splitext_ext filename)), by
        rw [processar_imagem_upload]; simp [hfn, hext]⟩
  · intro hext
    rw [processar_imagem_upload]; simp [hfn, hext]
  · intro hext hzero
    rw [processar_imagem_upload]; simp [hfn, hext, hzero]
  · intro hext hzero hbig
    rw [processar_imagem_upload]; simp [hfn, hext, hzero, hbig]
  · intro hext hzero hbig hdec
    rw [processar_imagem_upload]; simp [hfn, hext, hzero, hbig, hdec]
  · intro img hext hzero hbig hdec hdim
    rw [processar_imagem_upload]; simp [hfn, hext, hzero, hbig, hdec, hdim]
  · intro img hext hzero hbig hdec hdim
    rw [processar_imagem_upload]; simp [hfn, hext, hzero, hbig, hdec, hdim]

/-- Witness for claim C4: a valid small PNG upload decodes to the raster
the decode capability produced. -/
theorem claim_C4_witness :
    processar_imagem_upload decW ("foto.png") [1, 2, 3] = .ok imgDec := by
  exact (claim_C4 decW ("foto.png") [1, 2, 3] (by decide)).2.2.2.2.2.2 imgDec
    (by decide) (by decide) (by decide) rfl (by decide)

-- ===========================================================================
-- Claim C5
-- ===========================================================================

/-- Claim C5: every Canny invocation with `limiar2 <= limiar1` fails with an
invalid-parameter error (HTTP 400) before any pixel processing — no
grayscale conversion, blur or edge detection is performed — and every
invocation with an aperture outside {3, 5, 7} fails likewise. -/
theorem claim_C5 (cannyP : Img → ℤ → ℤ → ℤ → Img)
    (gaussP : Img → ℤ → ℤ → ℚ → Img) (img : Img)
    (limiar1 limiar2 tamanho_abertura : ℤ) (aplicar_blur : Bool) :
    (limiar2 ≤ limiar1 →
      respStatus (borda_canny cannyP gaussP img limiar1 limiar2 tamanho_abertura
          aplicar_blur).1 = 400 ∧
      (borda_canny cannyP gaussP img limiar1 limiar2 tamanho_abertura
        aplicar_blur).2 = []) ∧
    (¬ (tamanho_abertura = 3 ∨ tamanho_abertura = 5 ∨ tamanho_abertura = 7) →
      respStatus (borda_canny cannyP gaussP img limiar1 limiar2 tamanho_abertura
          aplicar_blur).1 = 400 ∧
      (borda_canny cannyP gaussP img limiar1 limiar2 tamanho_abertura
        aplicar_blur).2 = []) := by
  constructor
  · intro hord
    rw [borda_canny]
    by_cases h1 : limiar1 < 0 ∨ limiar1 > 255
    · simp [validar_intervalo, h1, respStatus]
    · by_cases h2 : limiar2 < 0 ∨ limiar2 > 255
      · simp [validar_intervalo, h1, h2, respStatus]
      · by_cases h3 : tamanho_abertura = 3 ∨ tamanho_abertura = 5 ∨ tamanho_abertura = 7
        · simp [validar_intervalo, validar_tamanho_abertura_canny,
            validar_ordem_limiares_canny, h1, h2, h3, hord, respStatus]
        · simp [validar_intervalo, validar_tamanho_abertura_canny, h1, h2, h3,
            respStatus]
  · intro hap
    rw [borda_canny]
    by_cases h1 : limiar1 < 0 ∨ limiar1 > 255
    · simp [validar_intervalo, h1, respStatus]
    · by_cases h2 : limiar2 < 0 ∨ limiar2 > 255
      · simp [validar_intervalo, h1, h2, respStatus]
      · simp [validar_intervalo, validar_tamanho_abertura_canny, h1, h2, hap,
          respStatus]

/-- Witness for claim C5: thresholds (200, 100) are rejected with HTTP 400
and no pixel operation runs; aperture 4 likewise. -/
theorem claim_C5_witness :
    (respStatus (borda_canny cpW gpW imgW 200 100 3 true).1 = 400 ∧
      (borda_canny cpW gpW imgW 200 100 3 true).2 = []) ∧
    (respStatus (borda_canny cpW gpW imgW 100 200 4 true).1 = 400 ∧
      (borda_canny cpW gpW imgW 100 200 4 true).2 = []) := by
  exact ⟨(claim_C5 cpW gpW imgW 200 100 3 true).1 (by decide),
    (claim_C5 cpW gpW imgW 100 200 4 true).2 (by decide)⟩

-- ===========================================================================
-- Claim C10
-- ===========================================================================

/-- Claim C10: a Canny threshold outside the inclusive range [0, 255] is
rejected with HTTP 400 before any pixel processing (the external Canny
primitive, which is total in this model and so would accept any value, is
never consulted); thresholds inside the range — with a valid aperture and
ordering — are passed through to the primitive unchanged. -/
theorem claim_C10 (cannyP : Img → ℤ → ℤ → ℤ → Img)
    (gaussP : Img → ℤ → ℤ → ℚ → Img) (img : Img)
    (limiar1 limiar2 tamanho_abertura : ℤ) (aplicar_blur : Bool) :
    ((limiar1 < 0 ∨ limiar1 > 255 ∨ limiar2 < 0 ∨ limiar2 > 255) →
      respStatus (borda_canny cannyP gaussP img limiar1 limiar2 tamanho_abertura
          aplicar_blur).1 = 400 ∧
      (borda_canny cannyP gaussP img limiar1 limiar2 tamanho_abertura
        aplicar_blur).2 = []) ∧
    (0 ≤ limiar1 → limiar1 ≤ 255 → 0 ≤ limiar2 → limiar2 ≤ 255 →
      (tamanho_abertura = 3 ∨ tamanho_abertura = 5 ∨ tamanho_abertura = 7) →
      limiar1 < limiar2 →
      (borda_canny cannyP gaussP img limiar1 limiar2 tamanho_abertura
          aplicar_blur).1 =
        .ok (cannyP
          (if aplicar_blur then gaussP (converter_para_cinza img) 5 5 0
           else converter_para_cinza img)
          limiar1 limiar2 tamanho_abertura)) := by
  constructor
  · intro hout
    rw [borda_canny]
    by_cases h1 : limiar1 < 0 ∨ limiar1 > 255
    · simp [validar_intervalo, h1, respStatus]
    · have h2 : limiar2 < 0 ∨ limiar2 > 255 := by omega
      simp [validar_intervalo, h1, h2, respStatus]
  · intro ha1 hb1 ha2 hb2 hap hord
    have h1 : ¬ (limiar1 < 0 ∨ limiar1 > 255) := by omega
    have h2 : ¬ (limiar2 < 0 ∨ limiar2 > 255) := by omega
    have h4 : ¬ limiar2 ≤ limiar1 := by omega
    rw [borda_canny]
    by_cases hb : aplicar_blur <;>
      simp [validar_intervalo, validar_tamanho_abertura_canny,
        validar_ordem_limiares_canny, h1, h2, hap, h4, hb]

/-- Witness for claim C10: threshold 300 is rejected with no pixel work;
the in-range pair (10, 30) with aperture 5 reaches the primitive
unchanged. -/
theorem claim_C10_witness :
    (respStatus (borda_canny cpW gpW imgW 300 100 3 true).1 = 400 ∧
      (borda_canny cpW gpW imgW 300 100 3 true).2 = []) ∧
    (borda_canny cpW gpW imgW 10 30 5 false).1 =
      .ok (cpW (converter_para_cinza imgW) 10 30 5) := by
  refine ⟨(claim_C10 cpW gpW imgW 300 100 3 true).1 (by decide), ?_⟩
  have h := (claim_C10 cpW gpW imgW 10 30 5 false).2 (by decide) (by decide)
    (by decide) (by decide) (by decide) (by decide)
  simpa using h

-- ===========================================================================
-- Claim C6
-- ===========================================================================

/-- Grayscale conversion preserves the height. -/
theorem conv_h (img : Img) : (converter_para_cinza img).h = img.h := by
  unfold converter_para_cinza cvtColorBGR2GRAY
  split <;> rfl

/-- Grayscale conversion preserves the width. -/
theorem conv_w (img : Img) : (converter_para_cinza img).w = img.w := by
  unfold converter_para_cinza cvtColorBGR2GRAY
  split <;> rfl

/-- Reflect indexing stays inside a nonempty axis for offsets at most one
step outside it. -/
theorem reflect_lt {n : ℕ} (hn : 0 < n) {i : ℤ} (h1 : -1 ≤ i)
    (h2 : i ≤ (n : ℤ)) : reflectIdx n i < n := by
  unfold reflectIdx
  split_ifs <;> omega

/-- On a uniform raster the grayscale image is constant over the grid. -/
theorem gray_const (img : Img) (hu : UniformImg img) (hh : 0 < img.h)
    (hw : 0 < img.w) :
    ∀ i < img.h, ∀ j < img.w,
      (converter_para_cinza img).px i j 0 = (converter_para_cinza img).px 0 0 0 := by
  intro i hi j hj
  unfold converter_para_cinza cvtColorBGR2GRAY
  split
  · dsimp only
    rw [hu 0 (by norm_num) i hi j hj 0 hh 0 hw,
      hu 1 (by norm_num) i hi j hj 0 hh 0 hw,
      hu 2 (by norm_num) i hi j hj 0 hh 0 hw]
  · exact hu 0 (by norm_num) i hi j hj 0 hh 0 hw

/-- On a uniform raster every reflect-extended normalized grayscale read
gives the same value. -/
theorem normPx_const (img : Img) (hu : UniformImg img) (hh : 0 < img.h)
    (hw : 0 < img.w) (i j : ℤ) (hi1 : -1 ≤ i) (hi2 : i ≤ (img.h : ℤ))
    (hj1 : -1 ≤ j) (hj2 : j ≤ (img.w : ℤ)) :
    normPx (converter_para_cinza img) i j =
      (converter_para_cinza img).px 0 0 0 / 255 := by
  unfold normPx
  rw [conv_h, conv_w]
  rw [gray_const img hu hh hw _ (reflect_lt hh hi1 hi2) _ (reflect_lt hw hj1 hj2)]

/-- The horizontal Sobel response vanishes on a uniform raster. -/
theorem sobel_h_uniform (img : Img) (hu : UniformImg img) (hh : 0 < img.h)
    (hw : 0 < img.w) (i j : ℕ) (hi : i < img.h) (hj : j < img.w) :
    sobel_h (converter_para_cinza img) i j = 0 := by
  unfold sobel_h
  rw [normPx_const img hu hh hw ((i : ℤ) - 1) ((j : ℤ) - 1)
      (by omega) (by omega) (by omega) (by omega),
    normPx_const img hu hh hw ((i : ℤ) - 1) (j : ℤ)
      (by omega) (by omega) (by omega) (by omega),
    normPx_const img hu hh hw ((i : ℤ) - 1) ((j : ℤ) + 1)
      (by omega) (by omega) (by omega) (by omega),
    normPx_const img hu hh hw ((i : ℤ) + 1) ((j : ℤ) - 1)
      (by omega) (by omega) (by omega) (by omega),
    normPx_const img hu hh hw ((i : ℤ) + 1) (j : ℤ)
      (by omega) (by omega) (by omega) (by omega),
    normPx_const img hu hh hw ((i : ℤ) + 1) ((j : ℤ) + 1)
      (by omega) (by omega) (by omega) (by omega)]
  ring

/-- The vertical Sobel response vanishes on a uniform raster. -/
theorem sobel_v_uniform (img : Img) (hu : UniformImg img) (hh : 0 < img.h)
    (hw : 0 < img.w) (i j : ℕ) (hi : i < img.h) (hj : j < img.w) :
    sobel_v (converter_para_cinza img) i j = 0 := by
  unfold sobel_v
  rw [normPx_const img hu hh hw ((i : ℤ) - 1) ((j : ℤ) - 1)
      (by omega) (by omega) (by omega) (by omega),
    normPx_const img hu hh hw ((i : ℤ) - 1) ((j : ℤ) + 1)
      (by omega) (by omega) (by omega) (by omega),
    normPx_const img hu hh hw (i : ℤ) ((j : ℤ) - 1)
      (by omega) (by omega) (by omega) (by omega),
    normPx_const img hu hh hw (i : ℤ) ((j : ℤ) + 1)
      (by omega) (by omega) (by omega) (by omega),
    normPx_const img hu hh hw ((i : ℤ) + 1) ((j : ℤ) - 1)
      (by omega) (by omega) (by omega) (by omega),
    normPx_const img hu hh hw ((i : ℤ) + 1) ((j : ℤ) + 1)
      (by omega) (by omega) (by omega) (by omega)]
  ring

/-- Both Roberts cross responses vanish on a uniform raster. -/
theorem roberts_uniform (img : Img) (hu : UniformImg img) (hh : 0 < img.h)
    (hw : 0 < img.w) (i j : ℕ) (hi : i < img.h) (hj : j < img.w) :
    roberts_pos (converter_para_cinza img) i j = 0 ∧
    roberts_neg (converter_para_cinza img) i j = 0 := by
  unfold roberts_pos roberts_neg
  rw [normPx_const img hu hh hw (i : ℤ) (j : ℤ)
      (by omega) (by omega) (by omega) (by omega),
    normPx_const img hu hh hw ((i : ℤ) + 1) ((j : ℤ) + 1)
      (by omega) (by omega) (by omega) (by omega),
    normPx_const img hu hh hw (i : ℤ) ((j : ℤ) + 1)
      (by omega) (by omega) (by omega) (by omega),
    normPx_const img hu hh hw ((i : ℤ) + 1) (j : ℤ)
      (by omega) (by omega) (by omega) (by omega)]
  exact ⟨by ring, by ring⟩

/-- A fold of `max` seeded with 0 over an all-zero list is 0. -/
theorem foldr_max_zero (l : List ℚ) (h : ∀ x ∈ l, x = 0) :
    l.foldr max 0 = 0 := by
  induction l with
  | nil => rfl
  | cons a t ih =>
    have ha : a = 0 := h a (List.mem_cons_self a t)
    have ht : ∀ x ∈ t, x = 0 := fun x hx => h x (List.mem_cons_of_mem a hx)
    simp [ha, ih ht]

/-- The matrix maximum of an all-zero map is 0. -/
theorem matMax_zero (h w : ℕ) (f : ℕ → ℕ → ℚ)
    (hz : ∀ i < h, ∀ j < w, f i j = 0) : matMax h w f = 0 := by
  unfold matMax
  apply foldr_max_zero
  intro x hx
  obtain ⟨i, hi, rfl⟩ := List.mem_map.mp hx
  apply foldr_max_zero
  intro y hy
  obtain ⟨j, hj, rfl⟩ := List.mem_map.mp hy
  exact hz i (List.mem_range.mp hi) j (List.mem_range.mp hj)

/-- On a uniform raster the observed Sobel magnitude maximum is exactly 0. -/
theorem sobelMaxVal_uniform (img : Img) (hu : UniformImg img) :
    sobelMaxVal img = 0 := by
  unfold sobelMaxVal
  apply matMax_zero
  intro i hi j hj
  rw [conv_h] at hi
  rw [conv_w] at hj
  unfold sobelMag hypotSq
  rw [sobel_h_uniform img hu (by omega) (by omega) i j hi hj,
    sobel_v_uniform img hu (by omega) (by omega) i j hi hj]
  ring

/-- On a uniform raster the observed Roberts magnitude maximum is exactly 0. -/
theorem robertsMaxVal_uniform (img : Img) (hu : UniformImg img) :
    robertsMaxVal img = 0 := by
  unfold robertsMaxVal
  apply matMax_zero
  intro i hi j hj
  rw [conv_h] at hi
  rw [conv_w] at hj
  obtain ⟨hp, hn⟩ := roberts_uniform img hu (by omega) (by omega) i j hi hj
  unfold robertsMag hypotSq
  rw [hp, hn]
  ring

/-- Claim C6: on an all-uniform-color raster the observed Sobel and Roberts
gradient-magnitude maxima are exactly 0, and in that zero-maximum case both
detectors return the all-zero raster with the shape of the grayscale input
instead of dividing (so no division error can occur); with a nonzero
maximum the output is the magnitude map normalized to 0–255 by dividing by
the observed maximum. -/
theorem claim_C6 (img : Img) :
    (UniformImg img → sobelMaxVal img = 0 ∧ robertsMaxVal img = 0) ∧
    (sobelMaxVal img = 0 → 0 < img.h → 0 < img.w →
      borda_sobel img = .ok (zerosGray img.h img.w)) ∧
    (robertsMaxVal img = 0 → 0 < img.h → 0 < img.w →
      borda_roberts img = .ok (zerosGray img.h img.w)) ∧
    (sobelMaxVal img ≠ 0 →
      borda_sobel img = .ok ⟨img.h, img.w, 1,
        fun i j _ => toUint8 (sobelMag img i j / sobelMaxVal img * 255)⟩) ∧
    (robertsMaxVal img ≠ 0 →
      borda_roberts img = .ok ⟨img.h, img.w, 1,
        fun i j _ => toUint8 (robertsMag img i j / robertsMaxVal img * 255)⟩) := by
  have hconvne : ∀ hh : 0 < img.h, ∀ hw : 0 < img.w,
      ¬ ((converter_para_cinza img).h = 0 ∨ (converter_para_cinza img).w = 0) := by
    intro hh hw hd
    rw [conv_h, conv_w] at hd
    omega
  refine ⟨?_, ?_, ?_, ?_, ?_⟩
  · intro hu
    exact ⟨sobelMaxVal_uniform img hu, robertsMaxVal_uniform img hu⟩
  · intro hmax hh hw
    simp only [borda_sobel]
    rw [if_neg (hconvne hh hw), if_pos hmax, conv_h, conv_w]
  · intro hmax hh hw
    simp only [borda_roberts]
    rw [if_neg (hconvne hh hw), if_pos hmax, conv_h, conv_w]
  · intro hne
    have hd : ¬ ((converter_para_cinza img).h = 0 ∨ (converter_para_cinza img).w = 0) := by
      intro hd
      apply hne
      unfold sobelMaxVal
      apply matMax_zero
      intro i hi j hj
      rcases hd with h0 | h0
      · exact absurd hi (by omega)
      · exact absurd hj (by omega)
    simp only [borda_sobel]
    rw [if_neg hd, if_neg hne, conv_h, conv_w]
  · intro hne
    have hd : ¬ ((converter_para_cinza img).h = 0 ∨ (converter_para_cinza img).w = 0) := by
      intro hd
      apply hne
      unfold robertsMaxVal
      apply matMax_zero
      intro i hi j hj
      rcases hd with h0 | h0
      · exact absurd hi (by omega)
      · exact absurd hj (by omega)
    simp only [borda_roberts]
    rw [if_neg hd, if_neg hne, conv_h, conv_w]

/-- A concrete 3×3 uniform BGR raster. -/
def imgU : Img := ⟨3, 3, 3, fun _ _ _ => 7⟩

/-- Witness for claim C6 on the concrete uniform raster: both detectors
return the 3×3 all-zero grayscale raster. -/
theorem claim_C6_witness :
    borda_sobel imgU = .ok (zerosGray 3 3) ∧
    borda_roberts imgU = .ok (zerosGray 3 3) := by
  have hu : UniformImg imgU := by decide
  obtain ⟨hz, hs, hr, _, _⟩ := claim_C6 imgU
  exact ⟨hs (hz hu).1 (by decide) (by decide), hr (hz hu).2 (by decide) (by decide)⟩
